import Mathlib

/-!
Verification development for the EnergySense dashboard (React/TypeScript frontend).

Numeric values are modelled over `ℚ`. JavaScript's `Number(x.toFixed(d))` is
modelled by `rnd d` (round to `d` decimal places). `Math.sin` is not exactly
representable, so functions that call it are parameterised by an abstract
`sinFn : ℚ → ℚ` standing for the sine values actually produced at the call
sites; all universally quantified results hold for every such function.
Timestamps are modelled as integer milliseconds (the source stores the ISO
string of `now - k * 15000`, whose chronological order is the order of the
underlying millisecond values).
-/

namespace EnergySense

/-- Values of `WasteClass` from `BlockStatusCards.tsx`:
`"NORMAL" | "NECESSARY" | "POSSIBLE_WASTE" | "WASTE"`. -/
inductive WasteClass where
  | NORMAL
  | NECESSARY
  | POSSIBLE_WASTE
  | WASTE
deriving DecidableEq, Repr

/-- Record `BlockHistoryPoint` from `BlockStatusCards.tsx` / `types/dashboard.ts`. -/
structure BlockHistoryPoint where
  ts : ℤ
  deviation_pct : ℚ
  energy_kwh : ℚ
  baseline_kwh : ℚ
deriving DecidableEq, Repr

/-- The fields of `BlockData` (`BlockStatusCards.tsx`) used by the rendering
logic under verification; optional fields not read by that logic are omitted. -/
structure BlockData where
  block : String
  energy_kwh : ℚ
  baseline : ℚ
  occupancy : ℚ
  temperature : ℚ
  status : WasteClass
  savings : ℚ
  deviation_pct : Option ℚ := none
  history : List BlockHistoryPoint := []
deriving DecidableEq, Repr

/-- JavaScript `Number(x.toFixed(d))`: round to `d` decimal places. -/
def rnd (d : ℕ) (x : ℚ) : ℚ :=
  (round (x * 10 ^ d) : ℤ) / 10 ^ d

/-- The per-point deviation of `generateHistory`:
`Math.sin(i / 2 + seed) * variance + variance / 3`, with `sinFn` standing
for `Math.sin`. -/
def histDeviation (variance : ℚ) (sinFn : ℚ → ℚ) (seed : ℚ) (i : ℕ) : ℚ :=
  sinFn ((i : ℚ) / 2 + seed) * variance + variance / 3

/-- Function `generateHistory` from `BlockStatusCards.tsx`: 16 points, each 15000 ms
apart ending just before `now`, with `deviation_pct` rounded to 1 decimal and
`energy_kwh = baseline * (1 + deviation / 100)` rounded to 2 decimals. -/
def generateHistory (baseline variance : ℚ) (sinFn : ℚ → ℚ) (seed : ℚ)
    (now : ℤ) : List BlockHistoryPoint :=
  (List.range 16).map fun i =>
    let deviation := histDeviation variance sinFn seed i
    let energy := baseline * (1 + deviation / 100)
    { ts := now - (16 - (i : ℤ)) * 15000
      deviation_pct := rnd 1 deviation
      energy_kwh := rnd 2 energy
      baseline_kwh := baseline }

/-- The `mockBlocks` array from `BlockStatusCards.tsx`, parameterised by the sine
function and the `Date.now()` value used by `generateHistory`. -/
def mockBlocks (sinFn : ℚ → ℚ) (now : ℤ) : List BlockData :=
  [ { block := "Block A — Admin", energy_kwh := 42.3, baseline := 38.5,
      occupancy := 85, temperature := 34, status := .NECESSARY, savings := 0,
      history := generateHistory 38.5 10 sinFn 1 now }
  , { block := "Block B — CS Dept", energy_kwh := 55.1, baseline := 35.0,
      occupancy := 12, temperature := 26, status := .WASTE, savings := 20.1,
      history := generateHistory 35.0 18 sinFn 2 now }
  , { block := "Block C — Library", energy_kwh := 30.2, baseline := 28.0,
      occupancy := 60, temperature := 30, status := .NORMAL, savings := 2.2,
      history := generateHistory 28.0 6 sinFn 3 now }
  , { block := "Block D — Labs", energy_kwh := 48.7, baseline := 36.0,
      occupancy := 20, temperature := 33, status := .POSSIBLE_WASTE, savings := 12.7,
      history := generateHistory 36.0 14 sinFn 4 now }
  , { block := "Block E — Hostel", energy_kwh := 25.4, baseline := 24.0,
      occupancy := 70, temperature := 29, status := .NORMAL, savings := 1.4,
      history := generateHistory 24.0 5 sinFn 5 now }
  , { block := "Block F — Canteen", energy_kwh := 62.0, baseline := 34.0,
      occupancy := 8, temperature := 25, status := .WASTE, savings := 28.0,
      history := generateHistory 34.0 20 sinFn 6 now } ]

/-- Flag `hasLiveData = Boolean(blocks && blocks.length > 0)` in `BlockStatusCards`. -/
def hasLiveData (blocks : Option (List BlockData)) : Bool :=
  match blocks with
  | some bs => !bs.isEmpty
  | none => false

/-- Rendered `rows = hasLiveData ? blocks! : blocks ? [] : mockBlocks` in
`BlockStatusCards` (the list of block cards actually rendered). -/
def rows (sinFn : ℚ → ℚ) (now : ℤ) (blocks : Option (List BlockData)) :
    List BlockData :=
  if hasLiveData blocks then blocks.getD []
  else match blocks with
    | some _ => []
    | none => mockBlocks sinFn now

/-- Component `BlockStatusCards` renders the "Waiting for live block data..." placeholder
exactly when `rows.length === 0`. -/
def showsWaitingPlaceholder (sinFn : ℚ → ℚ) (now : ℤ)
    (blocks : Option (List BlockData)) : Bool :=
  (rows sinFn now blocks).isEmpty

/-- Memo `totalSavings` in `BlockStatusCards`: the override when supplied,
otherwise `rows.reduce((sum, b) => sum + b.savings, 0)`. -/
def totalSavings (totalSavingsOverride : Option ℚ) (rs : List BlockData) : ℚ :=
  match totalSavingsOverride with
  | some v => v
  | none => rs.foldl (fun sum b => sum + b.savings) 0

/-- The deviation shown on a block card (`BlockStatusCards.tsx` line 155):
`block.deviation_pct ?? ((block.energy_kwh - block.baseline) / block.baseline * 100)`. -/
def deviationShown (b : BlockData) : ℚ :=
  match b.deviation_pct with
  | some d => d
  | none => (b.energy_kwh - b.baseline) / b.baseline * 100

/-- Values of `pathway_state.stream_status` from `types/dashboard.ts`:
`"WAITING_FOR_DATA" | "IDLE" | "LIVE"`. -/
inductive StreamState where
  | WAITING_FOR_DATA
  | IDLE
  | LIVE
deriving DecidableEq, Repr

/-- The fields of `DashboardSnapshot.pathway_state` (`types/dashboard.ts`)
read by the stream-label logic; the remaining metadata fields are omitted. -/
structure PathwayState where
  stream_status : StreamState
  events_last_minute : ℕ := 0
  blocks_updated : ℕ := 0
deriving DecidableEq, Repr

/-- The fields of `BlockStatus` (`types/dashboard.ts`) read by the dashboard
logic under verification; optional predictive fields are omitted. -/
structure BlockStatus where
  block_id : String
  block_label : String
  energy_kwh : ℚ
  baseline_kwh : ℚ
  occupancy : ℚ
  temperature : ℚ
  status : WasteClass
  savings_kwh : ℚ
  deviation_pct : ℚ
  tariff_inr_per_kwh : ℚ
  cost_inr : ℚ
  waste_cost_inr : ℚ
  carbon_intensity_kg_per_kwh : ℚ
  co2_kg : ℚ
  root_cause : String
  history : List BlockHistoryPoint := []
deriving DecidableEq, Repr

/-- The fields of `DashboardSnapshot` (`types/dashboard.ts`) read by the
stream-label and hotspot logic of `Dashboard.tsx`. -/
structure DashboardSnapshot where
  blocks : List BlockStatus
  pathway_state : Option PathwayState := none
deriving DecidableEq, Repr

/-- Flag `waitingForData` in `Dashboard.tsx` (line 124):
`!snapshot || pathwayState?.stream_status === "WAITING_FOR_DATA" || snapshot.blocks.length === 0`. -/
def waitingForData (snapshot : Option DashboardSnapshot) : Bool :=
  match snapshot with
  | none => true
  | some s =>
    (match s.pathway_state with
     | some p => p.stream_status == StreamState.WAITING_FOR_DATA
     | none => false) || s.blocks.isEmpty

/-- Flag `isLive = liveFromEvents && !waitingForData` in `Dashboard.tsx`. -/
def isLive (snapshot : Option DashboardSnapshot) (liveFromEvents : Bool) : Bool :=
  liveFromEvents && !waitingForData snapshot

/-- Label `streamLabel` in `Dashboard.tsx` (line 126):
`waitingForData ? "WAITING FOR DATA" : isLive ? "LIVE STREAM" : "RECONNECTING"`. -/
def streamLabel (snapshot : Option DashboardSnapshot) (liveFromEvents : Bool) :
    String :=
  if waitingForData snapshot then "WAITING FOR DATA"
  else if isLive snapshot liveFromEvents then "LIVE STREAM"
  else "RECONNECTING"

/-- Memo `hotspots` in `Dashboard.tsx` (lines 163-166): blocks whose status is
`WASTE` or `POSSIBLE_WASTE`, in snapshot order; `[]` when there is no snapshot. -/
def hotspots (snapshot : Option DashboardSnapshot) : List BlockStatus :=
  match snapshot with
  | none => []
  | some s =>
    s.blocks.filter fun b =>
      b.status == WasteClass.WASTE || b.status == WasteClass.POSSIBLE_WASTE

/-- The `range` divisor of `Sparkline.tsx`: `max - min || 1`, i.e. the spread
of the values with a zero spread replaced by `1`. -/
def sparkRange (values : List ℚ) : ℚ :=
  match values with
  | [] => 1
  | v :: vs =>
    let r0 := vs.foldl max v - vs.foldl min v
    if r0 = 0 then 1 else r0

/-- Component `Sparkline` from `Sparkline.tsx`: `none` models the "No activity yet"
fallback (rendered when `values.length < 2`); otherwise the polyline points
`(index / (values.length - 1) * 100, height - (value - min) / range * height)`. -/
def sparklinePoints (values : List ℚ) (height : ℚ) :
    Option (List (ℚ × ℚ)) :=
  match values with
  | [] => none
  | [_] => none
  | v :: vs =>
    let mn := vs.foldl min v
    let range := sparkRange (v :: vs)
    let n := (v :: vs).length
    some <| (v :: vs).enum.map fun p =>
      ((p.1 : ℚ) / ((n : ℚ) - 1) * 100, height - (p.2 - mn) / range * height)

/-- Modelled from the spec: the classification thresholds of §4.5 (tolerance
band, occupancy threshold, temperature comfort band, uncertainty fraction) as
an explicit configuration record; the backend Classification Engine is not
part of the frontend sources. -/
structure ClassifyConfig where
  tolerance_pct : ℚ := 10
  occupancy_high_pct : ℚ := 60
  temp_comfort_low : ℚ := 18
  temp_comfort_high : ℚ := 30
  possible_waste_fraction : ℚ := 1/2
deriving DecidableEq, Repr

/-- Modelled from the spec: "temperature is extreme (outside a comfortable
band)" (§4.5). -/
def tempExtreme (cfg : ClassifyConfig) (temperature_c : ℚ) : Prop :=
  temperature_c < cfg.temp_comfort_low ∨ cfg.temp_comfort_high < temperature_c

instance (cfg : ClassifyConfig) (t : ℚ) : Decidable (tempExtreme cfg t) := by
  unfold tempExtreme; infer_instance

/-- Modelled from the spec: "occupancy is high (above a configured
threshold)" (§4.5). -/
def occupancyHigh (cfg : ClassifyConfig) (occupancy_pct : ℚ) : Prop :=
  cfg.occupancy_high_pct < occupancy_pct

instance (cfg : ClassifyConfig) (o : ℚ) : Decidable (occupancyHigh cfg o) := by
  unfold occupancyHigh; infer_instance

/-- The root-cause category of the classification decision: which signals
triggered it (the templated `root_cause` string is generated from this). -/
inductive RootCauseKind where
  | withinTolerance
  | justifiedByContext
  | unjustifiedExcess
  | ambiguous
deriving DecidableEq, Repr

/-- Modelled from the spec: the status decision of `classify()` (§4.5), the
four rules checked in order with first match winning; the backend
Classification Engine is not part of the frontend sources. -/
def classifyStatus (cfg : ClassifyConfig)
    (deviation_pct occupancy_pct temperature_c : ℚ) : WasteClass :=
  if -cfg.tolerance_pct ≤ deviation_pct ∧ deviation_pct ≤ cfg.tolerance_pct then
    .NORMAL
  else if 0 < deviation_pct ∧
      (occupancyHigh cfg occupancy_pct ∨ tempExtreme cfg temperature_c) then
    .NECESSARY
  else if 0 < deviation_pct ∧ ¬ occupancyHigh cfg occupancy_pct ∧
      ¬ tempExtreme cfg temperature_c then
    .WASTE
  else .POSSIBLE_WASTE

/-- Modelled from the spec: the root-cause category of `classify()` (§4.5),
following the same rule order as `classifyStatus`. -/
def rootCauseKind (cfg : ClassifyConfig)
    (deviation_pct occupancy_pct temperature_c : ℚ) : RootCauseKind :=
  if -cfg.tolerance_pct ≤ deviation_pct ∧ deviation_pct ≤ cfg.tolerance_pct then
    .withinTolerance
  else if 0 < deviation_pct ∧
      (occupancyHigh cfg occupancy_pct ∨ tempExtreme cfg temperature_c) then
    .justifiedByContext
  else if 0 < deviation_pct ∧ ¬ occupancyHigh cfg occupancy_pct ∧
      ¬ tempExtreme cfg temperature_c then
    .unjustifiedExcess
  else .ambiguous

/-- Modelled from the spec: an enriched record entering `classify()` (§4.4,
§4.5). -/
structure EnrichedRecord where
  energy_kwh : ℚ
  baseline_kwh : ℚ
  deviation_pct : ℚ
  occupancy_pct : ℚ
  temperature_c : ℚ
  tariff_inr_per_kwh : ℚ
  carbon_intensity_kg_per_kwh : ℚ
deriving DecidableEq, Repr

/-- Modelled from the spec: the output of `classify()` (§4.5). -/
structure ClassifiedOutcome where
  status : WasteClass
  savings_kwh : ℚ
  cost_inr : ℚ
  waste_cost_inr : ℚ
  co2_kg : ℚ
  root_cause : RootCauseKind
deriving DecidableEq, Repr

/-- Modelled from the spec: `classify(enriched_record)` (§4.5); `savings_kwh`
is `0` for NORMAL/NECESSARY, the full excess for WASTE, and a configured
fraction of the excess for POSSIBLE_WASTE; `cost_inr = energy_kwh * tariff`,
`waste_cost_inr = savings_kwh * tariff`, `co2_kg = savings_kwh * carbon`.
The backend Classification Engine is not part of the frontend sources. -/
def classify (cfg : ClassifyConfig) (r : EnrichedRecord) : ClassifiedOutcome :=
  let status := classifyStatus cfg r.deviation_pct r.occupancy_pct r.temperature_c
  let savings :=
    match status with
    | .NORMAL => 0
    | .NECESSARY => 0
    | .WASTE => r.energy_kwh - r.baseline_kwh
    | .POSSIBLE_WASTE => cfg.possible_waste_fraction * (r.energy_kwh - r.baseline_kwh)
  { status := status
    savings_kwh := savings
    cost_inr := r.energy_kwh * r.tariff_inr_per_kwh
    waste_cost_inr := savings * r.tariff_inr_per_kwh
    co2_kg := savings * r.carbon_intensity_kg_per_kwh
    root_cause := rootCauseKind cfg r.deviation_pct r.occupancy_pct r.temperature_c }

/-- The IEEE-double value printed as `0.9092974268256817`, the value
`Math.sin(2)` produces at the first history point of mock Block B
(`generateHistory(35.0, 18, 2)` with `i = 0`), as a decimal rational. -/
def sin2double : ℚ := 9092974268256817 / 10 ^ 16

/-- A sample classified block with status `WASTE`, used to evaluate the
hotspot logic on a concrete snapshot. -/
def sampleWaste : BlockStatus :=
  { block_id := "B1", block_label := "Block B — CS Dept", energy_kwh := 55.1,
    baseline_kwh := 35.0, occupancy := 12, temperature := 26,
    status := .WASTE, savings_kwh := 20.1, deviation_pct := 57.4,
    tariff_inr_per_kwh := 8, cost_inr := 440.8, waste_cost_inr := 160.8,
    carbon_intensity_kg_per_kwh := 0.7, co2_kg := 14.07,
    root_cause := "Low occupancy with above-baseline energy use" }

/-- A sample classified block with status `NORMAL`, used to evaluate the
hotspot logic on a concrete snapshot. -/
def sampleNormal : BlockStatus :=
  { block_id := "B3", block_label := "Block C — Library", energy_kwh := 30.2,
    baseline_kwh := 28.0, occupancy := 60, temperature := 30,
    status := .NORMAL, savings_kwh := 2.2, deviation_pct := 7.9,
    tariff_inr_per_kwh := 8, cost_inr := 241.6, waste_cost_inr := 0,
    carbon_intensity_kg_per_kwh := 0.7, co2_kg := 0,
    root_cause := "Within tolerance" }

/-- A sample snapshot holding one WASTE block and one NORMAL block. -/
def sampleSnapshot : DashboardSnapshot :=
  { blocks := [sampleWaste, sampleNormal]
    pathway_state := some { stream_status := .LIVE } }

/-- A sample block record that omits `deviation_pct`, used to evaluate the
displayed-deviation fallback on concrete data. -/
def sampleBlockNoDev : BlockData :=
  { block := "Block W", energy_kwh := 50, baseline := 40, occupancy := 50,
    temperature := 25, status := .NORMAL, savings := 0 }

/-- C1: for every displayed block whose record omits `deviation_pct`, under
the precondition `baseline > 0`, `BlockStatusCards` computes the shown
deviation as `(energy_kwh - baseline_kwh) / baseline_kwh * 100`. -/
theorem C1_deviation_formula (b : BlockData) (hmiss : b.deviation_pct = none)
    (hpos : 0 < b.baseline) :
    deviationShown b = (b.energy_kwh - b.baseline) / b.baseline * 100 := by
  simp [deviationShown, hmiss]

/-- Witness for C1 at a concrete block with energy 50, baseline 40. -/
theorem C1_deviation_formula_witness :
    (0 : ℚ) < sampleBlockNoDev.baseline ∧
      deviationShown sampleBlockNoDev =
        (sampleBlockNoDev.energy_kwh - sampleBlockNoDev.baseline) /
          sampleBlockNoDev.baseline * 100 :=
  ⟨by norm_num [sampleBlockNoDev],
   C1_deviation_formula sampleBlockNoDev rfl (by norm_num [sampleBlockNoDev])⟩

/-- C2: mock Block B (`mockBlocks[1]`) has baseline 35.0, energy 55.1,
occupancy 12, temperature 26, status WASTE and savings 20.1 = energy -
baseline; its displayed deviation is within 0.05 of 57.4; and with tariff
8 INR/kWh and carbon intensity 0.7 kg/kWh the spec-modelled classifier
yields status WASTE, savings 20.1 kWh, waste cost 160.8 INR and CO2
14.07 kg on this event. -/
theorem C2_scenarioA_blockB (sinFn : ℚ → ℚ) (now : ℤ) :
    ∃ b, (mockBlocks sinFn now).get? 1 = some b ∧
      b.energy_kwh = 55.1 ∧ b.baseline = 35.0 ∧ b.occupancy = 12 ∧
      b.temperature = 26 ∧ b.status = .WASTE ∧
      b.savings = b.energy_kwh - b.baseline ∧ b.savings = 20.1 ∧
      |deviationShown b - 57.4| < 1/20 ∧
      b.savings * 8 = 160.8 ∧ b.savings * 0.7 = 14.07 ∧
      classify {}
        { energy_kwh := 55.1, baseline_kwh := 35.0,
          deviation_pct := (55.1 - 35.0) / 35.0 * 100, occupancy_pct := 12,
          temperature_c := 26, tariff_inr_per_kwh := 8,
          carbon_intensity_kg_per_kwh := 0.7 } =
        { status := .WASTE, savings_kwh := 20.1, cost_inr := 440.8,
          waste_cost_inr := 160.8, co2_kg := 14.07,
          root_cause := .unjustifiedExcess } := by
  refine ⟨_, rfl, rfl, rfl, rfl, rfl, rfl, by norm_num, rfl,
    by norm_num [deviationShown, abs_lt], by norm_num, by norm_num,
    by norm_num [classify, classifyStatus, rootCauseKind, occupancyHigh,
      tempExtreme, ClassifiedOutcome.mk.injEq]⟩

/-- C4: the spec-modelled `classify` decision is deterministic — identical
`(deviation_pct, occupancy_pct, temperature_c)` inputs under an identical
threshold configuration yield the same status and root-cause category. -/
theorem C4_classify_deterministic (cfg : ClassifyConfig)
    (d₁ o₁ t₁ d₂ o₂ t₂ : ℚ)
    (hd : d₁ = d₂) (ho : o₁ = o₂) (ht : t₁ = t₂) :
    classifyStatus cfg d₁ o₁ t₁ = classifyStatus cfg d₂ o₂ t₂ ∧
      rootCauseKind cfg d₁ o₁ t₁ = rootCauseKind cfg d₂ o₂ t₂ := by
  subst hd; subst ho; subst ht
  exact ⟨rfl, rfl⟩

/-- Witness for C4 at the Scenario A inputs (deviation 57.4, occupancy 12,
temperature 26), whose common classification is WASTE. -/
theorem C4_classify_deterministic_witness :
    (classifyStatus {} 57.4 12 26 = classifyStatus {} 57.4 12 26 ∧
      rootCauseKind {} 57.4 12 26 = rootCauseKind {} 57.4 12 26) ∧
      classifyStatus {} 57.4 12 26 = WasteClass.WASTE :=
  ⟨C4_classify_deterministic {} 57.4 12 26 57.4 12 26 rfl rfl rfl,
   by norm_num [classifyStatus, occupancyHigh, tempExtreme]⟩

/-- C5: whenever the snapshot is absent, or its `pathway_state.stream_status`
is `WAITING_FOR_DATA`, or its block list is empty, the dashboard stream label
is "WAITING FOR DATA" and never "LIVE STREAM", for every `liveFromEvents`. -/
theorem C5_waiting_label (snapshot : Option DashboardSnapshot)
    (liveFromEvents : Bool)
    (h : snapshot = none ∨ ∃ s, snapshot = some s ∧
        ((∃ p, s.pathway_state = some p ∧
            p.stream_status = StreamState.WAITING_FOR_DATA) ∨
          s.blocks = [])) :
    streamLabel snapshot liveFromEvents = "WAITING FOR DATA" ∧
      streamLabel snapshot liveFromEvents ≠ "LIVE STREAM" := by
  have hw : waitingForData snapshot = true := by
    rcases h with rfl | ⟨s, rfl, h⟩
    · rfl
    · rcases h with ⟨p, hp, hs⟩ | hb
      · simp [waitingForData, hp, hs]
      · simp [waitingForData, hb]
  refine ⟨by simp [streamLabel, hw], ?_⟩
  simp only [streamLabel, hw, if_true]
  decide

/-- Witness for C5 with no snapshot and a live event feed. -/
theorem C5_waiting_label_witness :
    streamLabel none true = "WAITING FOR DATA" ∧
      streamLabel none true ≠ "LIVE STREAM" :=
  C5_waiting_label none true (Or.inl rfl)

/-- C6: with no `totalSavingsOverride`, the Total Potential Savings value of
`BlockStatusCards` equals the sum of the `savings` field over exactly the
displayed rows. -/
theorem C6_total_savings (rs : List BlockData) :
    totalSavings none rs = (rs.map fun b => b.savings).sum := by
  suffices h : ∀ (l : List BlockData) (a : ℚ),
      l.foldl (fun sum b => sum + b.savings) a = a + (l.map fun b => b.savings).sum by
    simpa [totalSavings] using h rs 0
  intro l
  induction l with
  | nil => intro a; simp
  | cons x xs ih => intro a; simp [ih, add_assoc]

/-- C7: the dashboard hotspot list holds exactly the snapshot's blocks whose
status is WASTE or POSSIBLE_WASTE — each such block appears, no NORMAL or
NECESSARY block appears, and the snapshot's block order is preserved (the
hotspot list is a sublist of the block list). -/
theorem C7_hotspots_exact (s : DashboardSnapshot) :
    (∀ b ∈ hotspots (some s),
        b.status = WasteClass.WASTE ∨ b.status = WasteClass.POSSIBLE_WASTE) ∧
    (∀ b ∈ s.blocks,
        (b.status = WasteClass.WASTE ∨ b.status = WasteClass.POSSIBLE_WASTE) →
          b ∈ hotspots (some s)) ∧
    (∀ b ∈ hotspots (some s),
        b.status ≠ WasteClass.NORMAL ∧ b.status ≠ WasteClass.NECESSARY) ∧
    (hotspots (some s)).Sublist s.blocks := by
  simp only [hotspots]
  refine ⟨?_, ?_, ?_, List.filter_sublist _⟩
  · intro b hb
    have h2 := List.of_mem_filter hb
    simpa using h2
  · intro b hb hst
    refine List.mem_filter.mpr ⟨hb, ?_⟩
    rcases hst with h | h <;> simp [h]
  · intro b hb
    have h2 := List.of_mem_filter hb
    simp only [Bool.or_eq_true, beq_iff_eq] at h2
    rcases h2 with h | h <;> rw [h] <;> exact ⟨by decide, by decide⟩

/-- Witness for C7: on a concrete snapshot with one WASTE and one NORMAL
block, the WASTE block is in the hotspot list. -/
theorem C7_hotspots_exact_witness :
    sampleWaste ∈ hotspots (some sampleSnapshot) :=
  (C7_hotspots_exact sampleSnapshot).2.1 sampleWaste
    (by simp [sampleSnapshot]) (Or.inl rfl)

/-- C8: mock Block A (`mockBlocks[0]`) has baseline 38.5, energy 42.3,
occupancy 85, temperature 34, status NECESSARY and savings exactly 0, and its
displayed deviation is within 0.05 of 9.9. -/
theorem C8_scenarioB_blockA (sinFn : ℚ → ℚ) (now : ℤ) :
    ∃ b, (mockBlocks sinFn now).get? 0 = some b ∧
      b.energy_kwh = 42.3 ∧ b.baseline = 38.5 ∧ b.occupancy = 85 ∧
      b.temperature = 34 ∧ b.status = .NECESSARY ∧ b.savings = 0 ∧
      |deviationShown b - 9.9| < 1/20 := by
  refine ⟨_, rfl, rfl, rfl, rfl, rfl, rfl, rfl,
    by norm_num [deviationShown, abs_lt]⟩

/-- C10: when the `blocks` prop is undefined, `BlockStatusCards` renders the
six hard-coded mock blocks (no placeholder); when the prop is an empty array,
it renders the "Waiting for live block data..." placeholder and no mock
blocks. -/
theorem C10_mock_vs_empty (sinFn : ℚ → ℚ) (now : ℤ) :
    rows sinFn now none = mockBlocks sinFn now ∧
      (mockBlocks sinFn now).length = 6 ∧
      showsWaitingPlaceholder sinFn now none = false ∧
      rows sinFn now (some []) = [] ∧
      showsWaitingPlaceholder sinFn now (some []) = true :=
  ⟨rfl, rfl, rfl, rfl, rfl⟩

/-- C9: `Sparkline` is total — fewer than 2 values renders the "No activity
yet" fallback; 2 or more values yield one point per value; the range divisor
is never zero (a zero spread is replaced by 1, in particular for constant
input lists); and the index divisor `values.length - 1` is nonzero. -/
theorem C9_sparkline_total (values : List ℚ) (height : ℚ) :
    (values.length < 2 → sparklinePoints values height = none) ∧
    (2 ≤ values.length →
      (∃ pts, sparklinePoints values height = some pts ∧
        pts.length = values.length) ∧ ((values.length : ℚ) - 1) ≠ 0) ∧
    sparkRange values ≠ 0 ∧
    (∀ c, (∀ x ∈ values, x = c) → sparkRange values = 1) := by
  refine ⟨?_, ?_, ?_, ?_⟩
  · intro h
    rcases values with _ | ⟨v, _ | ⟨w, ws⟩⟩
    · rfl
    · rfl
    · simp only [List.length_cons] at h
      omega
  · intro h
    rcases values with _ | ⟨v, _ | ⟨w, ws⟩⟩
    · simp at h
    · simp at h
    · refine ⟨?_, ?_⟩
      · exact ⟨_, rfl, by simp⟩
      intro hc
      have h0 : (0 : ℚ) ≤ (ws.length : ℚ) := Nat.cast_nonneg _
      simp only [List.length_cons] at hc
      push_cast at hc
      linarith
  · match values with
    | [] => simp [sparkRange]
    | v :: vs =>
      by_cases h : vs.foldl max v - vs.foldl min v = 0 <;>
        simp [sparkRange, h]
  · intro c hc
    match values with
    | [] => simp [sparkRange]
    | v :: vs =>
      have hv : v = c := hc v (by simp)
      have hm : ∀ (l : List ℚ) (a : ℚ), a = c → (∀ x ∈ l, x = c) →
          l.foldl max a = c ∧ l.foldl min a = c := by
        intro l
        induction l with
        | nil => intro a ha _; simp [ha]
        | cons x xs ih =>
          intro a ha hx
          have hxc : x = c := hx x (by simp)
          constructor
          · exact (ih (max a x) (by rw [ha, hxc, max_self])
              (fun y hy => hx y (List.mem_cons_of_mem _ hy))).1
          · exact (ih (min a x) (by rw [ha, hxc, min_self])
              (fun y hy => hx y (List.mem_cons_of_mem _ hy))).2
      have h1 := (hm vs v hv (fun y hy => hc y (List.mem_cons_of_mem _ hy))).1
      have h2 := (hm vs v hv (fun y hy => hc y (List.mem_cons_of_mem _ hy))).2
      simp [sparkRange, h1, h2]

/-- Witness for C9: the empty list falls back, a constant 3-value list gets 3
points with range divisor 1. -/
theorem C9_sparkline_total_witness :
    sparklinePoints ([] : List ℚ) 34 = none ∧
      (sparklinePoints [(5 : ℚ), 5, 5] 34).map List.length = some 3 ∧
      sparkRange [(5 : ℚ), 5, 5] = 1 := by
  refine ⟨(C9_sparkline_total [] 34).1 (by norm_num), ?_, ?_⟩
  · obtain ⟨⟨pts, hp, hl⟩, _⟩ :=
      (C9_sparkline_total [(5 : ℚ), 5, 5] 34).2.1 (by norm_num)
    rw [hp]
    simp [hl]
  · exact (C9_sparkline_total [(5 : ℚ), 5, 5] 34).2.2.2 5 (by norm_num)

/-- C3 (amended): for every baseline, variance, seed and sine values,
`generateHistory` returns exactly 16 points, whose timestamps are strictly
increasing at exactly 15-second (15000 ms) spacing, and whose stored
`energy_kwh` is `baseline * (1 + deviation / 100)` rounded to 2 decimal
places, where `deviation` is the raw sinusoidal deviation of that point (the
stored `deviation_pct` is that value rounded to 1 decimal place); in
particular the history never exceeds the capacity 16 and is in strictly
increasing timestamp order. -/
theorem C3_generateHistory_bounded_ordered (baseline variance seed : ℚ)
    (sinFn : ℚ → ℚ) (now : ℤ) :
    (generateHistory baseline variance sinFn seed now).length = 16 ∧
    (∀ (i : ℕ) (hi : i < (generateHistory baseline variance sinFn seed now).length),
      (generateHistory baseline variance sinFn seed now)[i] =
        { ts := now - (16 - (i : ℤ)) * 15000
          deviation_pct := rnd 1 (histDeviation variance sinFn seed i)
          energy_kwh :=
            rnd 2 (baseline * (1 + histDeviation variance sinFn seed i / 100))
          baseline_kwh := baseline }) ∧
    (generateHistory baseline variance sinFn seed now).Chain'
      (fun p q => q.ts = p.ts + 15000) ∧
    (generateHistory baseline variance sinFn seed now).Pairwise
      (fun p q => p.ts < q.ts) := by
  have hlen : (generateHistory baseline variance sinFn seed now).length = 16 := by
    simp [generateHistory]
  have hget : ∀ (i : ℕ)
      (hi : i < (generateHistory baseline variance sinFn seed now).length),
      (generateHistory baseline variance sinFn seed now)[i] =
        { ts := now - (16 - (i : ℤ)) * 15000
          deviation_pct := rnd 1 (histDeviation variance sinFn seed i)
          energy_kwh :=
            rnd 2 (baseline * (1 + histDeviation variance sinFn seed i / 100))
          baseline_kwh := baseline } := by
    intro i hi
    simp [generateHistory]
  refine ⟨hlen, hget, ?_, ?_⟩
  · rw [List.chain'_iff_get]
    intro i h
    rw [hlen] at h
    have h1 : i < (generateHistory baseline variance sinFn seed now).length := by
      rw [hlen]; omega
    have h2 : i + 1 < (generateHistory baseline variance sinFn seed now).length := by
      rw [hlen]; omega
    rw [List.get_eq_getElem, List.get_eq_getElem, hget i h1, hget (i + 1) h2]
    show now - (16 - ((i : ℕ) + 1 : ℤ)) * 15000 =
      now - (16 - (i : ℤ)) * 15000 + 15000
    ring
  · rw [List.pairwise_iff_get]
    intro i j hij
    rw [List.get_eq_getElem, List.get_eq_getElem, hget i i.isLt, hget j j.isLt]
    show now - (16 - ((i : ℕ) : ℤ)) * 15000 <
      now - (16 - ((j : ℕ) : ℤ)) * 15000
    have hn : (i : ℕ) < (j : ℕ) := hij
    omega

/-- Witness for C3 (amended) at baseline 35, variance 18, seed 2, zero sine
values, `now = 0`, first point. -/
theorem C3_generateHistory_bounded_ordered_witness :
    (generateHistory 35 18 (fun _ => (0 : ℚ)) 2 0).length = 16 ∧
      (generateHistory 35 18 (fun _ => (0 : ℚ)) 2 0)[0]? =
        some { ts := 0 - (16 - ((0 : ℕ) : ℤ)) * 15000
               deviation_pct := rnd 1 (histDeviation 18 (fun _ => 0) 2 0)
               energy_kwh :=
                 rnd 2 (35 * (1 + histDeviation 18 (fun _ => 0) 2 0 / 100))
               baseline_kwh := 35 } := by
  have h := C3_generateHistory_bounded_ordered 35 18 2 (fun _ => 0) 0
  refine ⟨h.1, ?_⟩
  have hl : 0 < (generateHistory 35 18 (fun _ => (0 : ℚ)) 2 0).length := by
    rw [h.1]; norm_num
  rw [List.getElem?_eq_getElem hl, h.2.1 0 hl]

/-- C3 counterexample: for mock Block B's history call (baseline 35,
variance 18, seed 2) with the actual first sine value `sin2double` of
`Math.sin(2)`, the first stored point is
`(ts = -240000, deviation_pct = 22.4, energy_kwh = 42.83)`, and `42.83`
equals neither `baseline * (1 + deviation_pct / 100) = 42.84` nor the exact
unrounded `baseline * (1 + deviation / 100)`; so the stored `energy_kwh` does
not exactly equal `baseline * (1 + deviation / 100)`. -/
theorem C3_generateHistory_counterexample :
    (generateHistory 35 18 (fun _ => sin2double) 2 0).head? =
      some { ts := -240000, deviation_pct := 112/5, energy_kwh := 4283/100,
             baseline_kwh := 35 } ∧
    (4283 : ℚ) / 100 ≠ 35 * (1 + (112/5) / 100) ∧
    (4283 : ℚ) / 100 ≠ 35 * (1 + (sin2double * 18 + 6) / 100) := by
  have h0 : (generateHistory 35 18 (fun _ => sin2double) 2 0).head? =
      some { ts := -240000
             deviation_pct := rnd 1 (histDeviation 18 (fun _ => sin2double) 2 0)
             energy_kwh :=
               rnd 2 (35 * (1 + histDeviation 18 (fun _ => sin2double) 2 0 / 100))
             baseline_kwh := 35 } := rfl
  have hd : rnd 1 (histDeviation 18 (fun _ => sin2double) 2 0) = 112/5 := by
    norm_num [rnd, histDeviation, sin2double, round_eq]
  have he : rnd 2 (35 * (1 + histDeviation 18 (fun _ => sin2double) 2 0 / 100)) =
      4283/100 := by
    norm_num [rnd, histDeviation, sin2double, round_eq]
  rw [h0, hd, he]
  refine ⟨rfl, by norm_num, by norm_num [sin2double]⟩

end EnergySense
